import Mathlib

/-!
Verification of the map-segmentation helper modules of the MasterThesis
repository (ITUNotebooks/helperFunctions).  The Python sources are embedded
shallowly: rasters become functions on `Fin`-indexed grids, OpenCV per-pixel
primitives (`inRange`, `bitwise_and` with a mask, `countNonZero`,
`drawContours` with `FILLED`) become the corresponding pure pixel functions,
and float ratios become exact rationals.
-/

namespace SegmentationModel

/-- A 3-channel pixel in storage order, as OpenCV stores images (BGR for
colour images loaded with `cv2.imread`; (H,S,V) after a `COLOR_BGR2HSV`
conversion).  Channels are 8-bit values, kept as `Nat`. -/
abbrev Pix : Type := Nat × Nat × Nat

/-- A 3-channel image of height `m` and width `n`. -/
abbrev Img (m n : Nat) : Type := Fin m → Fin n → Pix

/-- A single-channel (mask / greyscale) image of height `m` and width `n`. -/
abbrev Mask (m n : Nat) : Type := Fin m → Fin n → Nat

/-- `cv2.inRange` test for one 3-channel pixel: every channel must lie
between the corresponding bounds (inclusive). -/
def pixInRange (lo hi p : Pix) : Bool :=
  decide (lo.1 ≤ p.1) && decide (p.1 ≤ hi.1) &&
  decide (lo.2.1 ≤ p.2.1) && decide (p.2.1 ≤ hi.2.1) &&
  decide (lo.2.2 ≤ p.2.2) && decide (p.2.2 ≤ hi.2.2)

/-- `cv2.inRange(img, lo, hi)`: the mask holding 255 where all channels of
`img` are within the bounds and 0 elsewhere. -/
def inRange3 {m n : Nat} (lo hi : Pix) (img : Img m n) : Mask m n :=
  fun i j => if pixInRange lo hi (img i j) then 255 else 0

/-- `cv2.bitwise_and(src, src, mask=mask)`: the source pixel where the mask
is non-zero, and a zero pixel elsewhere. -/
def bitwiseAndMasked {m n : Nat} (img : Img m n) (mask : Mask m n) : Img m n :=
  fun i j => if mask i j ≠ 0 then img i j else (0, 0, 0)

/-- `cv2.countNonZero`: the number of grid positions whose mask value is
non-zero. -/
def countNonZero {m n : Nat} (mask : Mask m n) : Nat :=
  (Finset.univ.filter (fun p : Fin m × Fin n => mask p.1 p.2 ≠ 0)).card

/-- A traced contour, as the segmentation code consumes it: `area` is the
value `cv2.contourArea` reports for it (a float with half-integer
granularity, kept as an exact rational) and `region` is the set of pixels
painted by `cv2.drawContours(..., FILLED)` for it. -/
structure Contour (m n : Nat) where
  area : ℚ
  region : Fin m → Fin n → Bool

/-- The mask built per contour at segmentation.py:70-71: a `zeros_like`
raster on which the contour is drawn filled with value 255. -/
def contourMask {m n : Nat} (c : Contour m n) : Mask m n :=
  fun i j => if c.region i j then 255 else 0

/-- `cv2.drawContours(img, [c], -1, color, FILLED)`: paint `color` on every
pixel of the contour's filled region. -/
def drawContoursFilled {m n : Nat} (img : Img m n) (region : Fin m → Fin n → Bool)
    (color : Pix) : Img m n :=
  fun i j => if region i j then color else img i j

/-- The contour area filter of segmentation.py:60-64 and 235-239: keep a
contour exactly when `cv2.contourArea` is below half the pixel count of the
raster and above 100. -/
def areaFilter {m n : Nat} (totalPixels : Nat) (cs : List (Contour m n)) :
    List (Contour m n) :=
  cs.filter (fun c => decide (c.area < (totalPixels : ℚ) / 2) && decide (100 < c.area))

/-- Number of route pixels inside the contour that match the green range of
segmentation.py:74-78: intersect the routes raster with the contour mask and
count the pixels whose BGR channels lie within (0,150,0)–(30,255,30). -/
def ppfGreenCount {m n : Nat} (routesImage : Img m n) (c : Contour m n) : Nat :=
  countNonZero (inRange3 (0, 150, 0) (30, 255, 30)
    (bitwiseAndMasked routesImage (contourMask c)))

/-- The fill colour chosen at segmentation.py:81-86: green (0,255,0) when
the intersection contains at least one matching pixel, red (0,0,255)
otherwise.  (Colours are BGR triples.) -/
def ppfColor {m n : Nat} (routesImage : Img m n) (c : Contour m n) : Pix :=
  if 0 < ppfGreenCount routesImage c then (0, 255, 0) else (0, 0, 255)

/-- One iteration of the classification loop of segmentation.py:67-89:
classify the contour from the routes raster and paint its filled region with
the chosen colour. -/
def ppfStep {m n : Nat} (routesImage : Img m n) (img : Img m n)
    (c : Contour m n) : Img m n :=
  drawContoursFilled img c.region (ppfColor routesImage c)

/-- The whole classification loop of segmentation.py:67-89 over the filtered
contour list, painting each classified fill onto the boundaries raster. -/
def ppfFillLoop {m n : Nat} (routesImage : Img m n) (base : Img m n)
    (cs : List (Contour m n)) : Img m n :=
  cs.foldl (ppfStep routesImage) base

theorem countNonZero_pos_iff {m n : Nat} (mask : Mask m n) :
    0 < countNonZero mask ↔ ∃ i j, mask i j ≠ 0 := by
  unfold countNonZero
  rw [Finset.card_pos, Finset.filter_nonempty_iff]
  constructor
  · rintro ⟨⟨i, j⟩, -, h⟩
    exact ⟨i, j, h⟩
  · rintro ⟨i, j, h⟩
    exact ⟨⟨i, j⟩, Finset.mem_univ _, h⟩

theorem ppfGreenMaskPix_ne_zero_iff {m n : Nat} (routesImage : Img m n)
    (c : Contour m n) (i : Fin m) (j : Fin n) :
    inRange3 (0, 150, 0) (30, 255, 30)
        (bitwiseAndMasked routesImage (contourMask c)) i j ≠ 0 ↔
      c.region i j = true ∧
        pixInRange (0, 150, 0) (30, 255, 30) (routesImage i j) = true := by
  by_cases hr : c.region i j = true
  · by_cases hp : pixInRange (0, 150, 0) (30, 255, 30) (routesImage i j) = true
    · simp [inRange3, bitwiseAndMasked, contourMask, hr, hp]
    · simp only [Bool.not_eq_true] at hp
      simp [inRange3, bitwiseAndMasked, contourMask, hr, hp]
  · simp only [Bool.not_eq_true] at hr
    simp [inRange3, bitwiseAndMasked, contourMask, hr, pixInRange]

theorem ppfGreenCount_pos_iff {m n : Nat} (routesImage : Img m n) (c : Contour m n) :
    0 < ppfGreenCount routesImage c ↔
      ∃ i j, c.region i j = true ∧
        pixInRange (0, 150, 0) (30, 255, 30) (routesImage i j) = true := by
  unfold ppfGreenCount
  rw [countNonZero_pos_iff]
  constructor
  · rintro ⟨i, j, h⟩
    exact ⟨i, j, (ppfGreenMaskPix_ne_zero_iff routesImage c i j).mp h⟩
  · rintro ⟨i, j, h1, h2⟩
    exact ⟨i, j, (ppfGreenMaskPix_ne_zero_iff routesImage c i j).mpr ⟨h1, h2⟩⟩

/-- `cv2.bitwise_and` of two single-channel masks: the per-pixel bitwise AND
of the 8-bit values. -/
def maskAnd {m n : Nat} (a b : Mask m n) : Mask m n :=
  fun i j => Nat.land (a i j) (b i j)

/-- `totalPixelCount` of segmentation.py:279: the number of non-zero pixels
of the filled contour mask. -/
def rvTotalPixelCount {m n : Nat} (c : Contour m n) : Nat :=
  countNonZero (contourMask c)

/-- `whitePixelCount` of segmentation.py:276-281: the number of non-zero
pixels of the binarised routes raster restricted to the contour mask. -/
def rvWhitePixelCount {m n : Nat} (binaryImage : Mask m n) (c : Contour m n) : Nat :=
  countNonZero (maskAnd binaryImage (contourMask c))

/-- `greenPixelCount` of segmentation.py:298-301: the number of non-zero
pixels of the satellite vegetation mask restricted to the contour mask. -/
def rvGreenPixelCount {m n : Nat} (green_mask : Mask m n) (c : Contour m n) : Nat :=
  countNonZero (maskAnd green_mask (contourMask c))

/-- The per-contour outcome of the route-and-vegetation loop. -/
inductive RVClass : Type
  | road : RVClass
  | vegetation : RVClass
  | unclassified : RVClass
deriving DecidableEq

/-- The decision structure of segmentation.py:284-307: the route-ratio check
is made first; only when it fails is the vegetation-coverage check made. -/
def rvClassify {m n : Nat} (binaryImage green_mask : Mask m n) (c : Contour m n) :
    RVClass :=
  if ((rvWhitePixelCount binaryImage c : ℚ) / (rvTotalPixelCount c : ℚ)) > 1 / 1000 then
    RVClass.road
  else if ((rvGreenPixelCount green_mask c : ℚ) / (rvTotalPixelCount c : ℚ)) > 1 / 10 then
    RVClass.vegetation
  else
    RVClass.unclassified

/-- One iteration of the loop of segmentation.py:269-310: fill the contour
red (0,0,255) when the route ratio exceeds 0.001; otherwise fill it red when
the vegetation coverage exceeds 0.10; otherwise leave the raster alone. -/
def rvStep {m n : Nat} (binaryImage green_mask : Mask m n) (amBaseMap : Img m n)
    (c : Contour m n) : Img m n :=
  if ((rvWhitePixelCount binaryImage c : ℚ) / (rvTotalPixelCount c : ℚ)) > 1 / 1000 then
    drawContoursFilled amBaseMap c.region (0, 0, 255)
  else if ((rvGreenPixelCount green_mask c : ℚ) / (rvTotalPixelCount c : ℚ)) > 1 / 10 then
    drawContoursFilled amBaseMap c.region (0, 0, 255)
  else
    amBaseMap

/-- The whole route-and-vegetation classification loop over the filtered
contour list. -/
def rvFillLoop {m n : Nat} (binaryImage green_mask : Mask m n) (base : Img m n)
    (cs : List (Contour m n)) : Img m n :=
  cs.foldl (rvStep binaryImage green_mask) base

theorem foldl_pix_invariant {m n : Nat} {γ : Type} (step : Img m n → γ → Img m n)
    (i : Fin m) (j : Fin n) (l : List γ)
    (hl : ∀ c ∈ l, ∀ img : Img m n, step img c i j = img i j) :
    ∀ base : Img m n, (l.foldl step base) i j = base i j := by
  induction l with
  | nil => intro base; rfl
  | cons c l ih =>
    intro base
    rw [List.foldl_cons, ih (fun d hd img => hl d (List.mem_cons_of_mem c hd) img)]
    exact hl c (List.mem_cons_self c l) base

theorem ppfStep_pix_frame {m n : Nat} (routesImage : Img m n) (c : Contour m n)
    (i : Fin m) (j : Fin n) (hr : c.region i j = false) (img : Img m n) :
    ppfStep routesImage img c i j = img i j := by
  simp [ppfStep, drawContoursFilled, hr]

theorem rvStep_pix_frame {m n : Nat} (binaryImage green_mask : Mask m n)
    (c : Contour m n) (i : Fin m) (j : Fin n) (hr : c.region i j = false)
    (img : Img m n) : rvStep binaryImage green_mask img c i j = img i j := by
  unfold rvStep
  split
  · simp [drawContoursFilled, hr]
  · split
    · simp [drawContoursFilled, hr]
    · rfl

/-- C1: in `privatePropertyFiltering`, for every contour that passes the
area filter, if the intersection of its filled mask with the routes raster
contains at least one pixel whose channels lie within (0,150,0)–(30,255,30)
then the contour is classified public and painted green (0,255,0), and
otherwise it is classified private and painted red (0,0,255). -/
theorem ppf_public_private_classification {m n : Nat}
    (routesImage : Img m n) (cs : List (Contour m n)) (c : Contour m n)
    (hmem : c ∈ areaFilter (m * n) cs) :
    ((∃ i j, c.region i j = true ∧
        pixInRange (0, 150, 0) (30, 255, 30) (routesImage i j) = true) →
      ppfColor routesImage c = (0, 255, 0)) ∧
    ((∀ i j, ¬(c.region i j = true ∧
        pixInRange (0, 150, 0) (30, 255, 30) (routesImage i j) = true)) →
      ppfColor routesImage c = (0, 0, 255)) ∧
    (∀ img : Img m n, ppfStep routesImage img c =
      drawContoursFilled img c.region (ppfColor routesImage c)) := by
  refine ⟨?_, ?_, fun img => rfl⟩
  · intro hx
    have hpos : 0 < ppfGreenCount routesImage c :=
      (ppfGreenCount_pos_iff routesImage c).mpr hx
    simp [ppfColor, hpos]
  · intro hno
    have hz : ¬ 0 < ppfGreenCount routesImage c := by
      rw [ppfGreenCount_pos_iff]
      rintro ⟨i, j, h1, h2⟩
      exact hno i j ⟨h1, h2⟩
    simp [ppfColor, hz]

/-- C2: in both `privatePropertyFiltering` and `routeAndVegFiltering`, a
traced contour whose area is ≤ 100 or ≥ half the raster pixel count is
dropped by the area filter, so no fill is drawn for it; the filtered list
holds exactly the contours with area strictly between 100 and half the
image area, and a pixel covered by no kept contour is left unmodified by
either classification loop. -/
theorem area_filter_excludes_small_and_large {m n : Nat} :
    (∀ (tot : Nat) (cs : List (Contour m n)) (c : Contour m n),
      c ∈ areaFilter tot cs ↔
        c ∈ cs ∧ 100 < c.area ∧ c.area < (tot : ℚ) / 2) ∧
    (∀ (routesImage base : Img m n) (tot : Nat) (cs : List (Contour m n))
        (i : Fin m) (j : Fin n),
      (∀ c ∈ areaFilter tot cs, c.region i j = false) →
      ppfFillLoop routesImage base (areaFilter tot cs) i j = base i j) ∧
    (∀ (binaryImage green_mask : Mask m n) (base : Img m n) (tot : Nat)
        (cs : List (Contour m n)) (i : Fin m) (j : Fin n),
      (∀ c ∈ areaFilter tot cs, c.region i j = false) →
      rvFillLoop binaryImage green_mask base (areaFilter tot cs) i j = base i j) := by
  refine ⟨?_, ?_, ?_⟩
  · intro tot cs c
    unfold areaFilter
    rw [List.mem_filter]
    constructor
    · rintro ⟨h1, h2⟩
      rw [Bool.and_eq_true, decide_eq_true_eq, decide_eq_true_eq] at h2
      exact ⟨h1, h2.2, h2.1⟩
    · rintro ⟨h1, h2, h3⟩
      refine ⟨h1, ?_⟩
      rw [Bool.and_eq_true, decide_eq_true_eq, decide_eq_true_eq]
      exact ⟨h3, h2⟩
  · intro routesImage base tot cs i j hc
    exact foldl_pix_invariant (ppfStep routesImage) i j (areaFilter tot cs)
      (fun c hmem img => ppfStep_pix_frame routesImage c i j (hc c hmem) img) base
  · intro binaryImage green_mask base tot cs i j hc
    exact foldl_pix_invariant (rvStep binaryImage green_mask) i j (areaFilter tot cs)
      (fun c hmem img => rvStep_pix_frame binaryImage green_mask c i j (hc c hmem) img)
      base

/-- C3: in `routeAndVegFiltering`, a contour passing the area filter whose
route-pixel fraction strictly exceeds 1/1000 is classified road and filled
red, whatever the satellite vegetation mask holds: the road check is decided
first and independently of the vegetation-coverage check. -/
theorem rv_road_check_priority {m n : Nat}
    (binaryImage : Mask m n) (cs : List (Contour m n)) (c : Contour m n)
    (hmem : c ∈ areaFilter (m * n) cs)
    (hroad : ((rvWhitePixelCount binaryImage c : ℚ) / (rvTotalPixelCount c : ℚ)) >
      1 / 1000) :
    ∀ (green_mask : Mask m n) (img : Img m n),
      rvClassify binaryImage green_mask c = RVClass.road ∧
      rvStep binaryImage green_mask img c =
        drawContoursFilled img c.region (0, 0, 255) := by
  intro green_mask img
  constructor
  · unfold rvClassify
    rw [if_pos hroad]
  · unfold rvStep
    rw [if_pos hroad]

/-- C4: in `routeAndVegFiltering`, a contour passing the area filter with no
route-line overlap is classified vegetation (and filled red) exactly when
its vegetation-coverage ratio strictly exceeds 1/10; at a ratio of exactly
1/10 it stays unclassified, and an unclassified contour leaves the raster
untouched. -/
theorem rv_vegetation_strict_threshold {m n : Nat}
    (binaryImage green_mask : Mask m n) (cs : List (Contour m n)) (c : Contour m n)
    (hmem : c ∈ areaFilter (m * n) cs)
    (htot : 0 < rvTotalPixelCount c)
    (hnoroute : rvWhitePixelCount binaryImage c = 0) :
    (rvClassify binaryImage green_mask c = RVClass.vegetation ↔
      ((rvGreenPixelCount green_mask c : ℚ) / (rvTotalPixelCount c : ℚ)) > 1 / 10) ∧
    (((rvGreenPixelCount green_mask c : ℚ) / (rvTotalPixelCount c : ℚ)) = 1 / 10 →
      rvClassify binaryImage green_mask c = RVClass.unclassified ∧
      ∀ img : Img m n, rvStep binaryImage green_mask img c = img) ∧
    (((rvGreenPixelCount green_mask c : ℚ) / (rvTotalPixelCount c : ℚ)) > 1 / 10 →
      ∀ img : Img m n, rvStep binaryImage green_mask img c =
        drawContoursFilled img c.region (0, 0, 255)) ∧
    (¬(((rvGreenPixelCount green_mask c : ℚ) / (rvTotalPixelCount c : ℚ)) > 1 / 10) →
      rvClassify binaryImage green_mask c = RVClass.unclassified ∧
      ∀ img : Img m n, rvStep binaryImage green_mask img c = img) := by
  have hwz : ¬(((rvWhitePixelCount binaryImage c : ℚ) / (rvTotalPixelCount c : ℚ)) >
      1 / 1000) := by
    rw [hnoroute]
    norm_num
  refine ⟨?_, ?_, ?_, ?_⟩
  · constructor
    · intro hcl
      by_contra hgle
      unfold rvClassify at hcl
      rw [if_neg hwz, if_neg hgle] at hcl
      exact RVClass.noConfusion hcl
    · intro hg
      unfold rvClassify
      rw [if_neg hwz, if_pos hg]
  · intro heq
    have hgle : ¬(((rvGreenPixelCount green_mask c : ℚ) /
        (rvTotalPixelCount c : ℚ)) > 1 / 10) := by
      rw [heq]
      exact lt_irrefl _
    constructor
    · unfold rvClassify
      rw [if_neg hwz, if_neg hgle]
    · intro img
      unfold rvStep
      rw [if_neg hwz, if_neg hgle]
  · intro hg img
    unfold rvStep
    rw [if_neg hwz, if_pos hg]
  · intro hgle
    constructor
    · unfold rvClassify
      rw [if_neg hwz, if_neg hgle]
    · intro img
      unfold rvStep
      rw [if_neg hwz, if_neg hgle]

/-- Witness fixture: a routes raster whose every pixel (0,200,0) lies in the
green range of the private-property classifier. -/
def wRoutesGreen : Img 1 202 := fun _ _ => (0, 200, 0)

/-- Witness fixture: a contour of area 100.5 covering the first ten columns
of a 1×202 raster; 100 < 100.5 < 202/2, so it passes the area filter. -/
def wContourA : Contour 1 202 := ⟨(201 : ℚ) / 2, fun _ j => decide (j.val < 10)⟩

theorem wContourA_mem : wContourA ∈ areaFilter (1 * 202) [wContourA] := by
  unfold areaFilter
  refine List.mem_filter.mpr ⟨List.mem_cons_self _ _, ?_⟩
  rw [Bool.and_eq_true, decide_eq_true_eq, decide_eq_true_eq]
  constructor
  · norm_num [wContourA]
  · norm_num [wContourA]

theorem ppf_public_private_classification_witness :
    ppfColor wRoutesGreen wContourA = (0, 255, 0) :=
  (ppf_public_private_classification wRoutesGreen [wContourA] wContourA
    wContourA_mem).1 ⟨0, 0, by decide, by decide⟩

/-- Witness fixture: a contour of area 50; it is dropped by the area filter. -/
def wContourSmall : Contour 1 1 := ⟨50, fun _ _ => true⟩

/-- Witness fixture: a 1×1 base raster. -/
def wBase11 : Img 1 1 := fun _ _ => (1, 2, 3)

/-- Witness fixture: a 1×1 routes raster. -/
def wRoutes11 : Img 1 1 := fun _ _ => (9, 9, 9)

theorem area_filter_excludes_witness :
    ppfFillLoop wRoutes11 wBase11 (areaFilter 1 [wContourSmall]) 0 0 = wBase11 0 0 :=
  area_filter_excludes_small_and_large.2.1 wRoutes11 wBase11 1 [wContourSmall] 0 0
    (by
      intro c hc
      exfalso
      unfold areaFilter at hc
      rw [List.mem_filter, List.mem_singleton] at hc
      obtain ⟨hceq, hp⟩ := hc
      subst hceq
      rw [Bool.and_eq_true, decide_eq_true_eq, decide_eq_true_eq] at hp
      have h2 := hp.1
      norm_num [wContourSmall] at h2)

/-- Witness fixture: a fully white binarised routes raster. -/
def wBinaryAll : Mask 1 202 := fun _ _ => 255

/-- Witness fixture: a one-pixel contour of area 100.5 on a 1×202 raster. -/
def wContourR : Contour 1 202 := ⟨(201 : ℚ) / 2, fun _ j => decide (j.val = 0)⟩

/-- Witness fixture: an all-zero satellite vegetation mask. -/
def wGreenZero : Mask 1 202 := fun _ _ => 0

/-- Witness fixture: a 1×202 base raster. -/
def wImg202 : Img 1 202 := fun _ _ => (8, 8, 8)

theorem wContourR_mem : wContourR ∈ areaFilter (1 * 202) [wContourR] := by
  unfold areaFilter
  refine List.mem_filter.mpr ⟨List.mem_cons_self _ _, ?_⟩
  rw [Bool.and_eq_true, decide_eq_true_eq, decide_eq_true_eq]
  constructor
  · norm_num [wContourR]
  · norm_num [wContourR]

theorem rv_road_check_priority_witness :
    rvClassify wBinaryAll wGreenZero wContourR = RVClass.road ∧
    rvStep wBinaryAll wGreenZero wImg202 wContourR =
      drawContoursFilled wImg202 wContourR.region (0, 0, 255) :=
  rv_road_check_priority wBinaryAll [wContourR] wContourR wContourR_mem
    (by
      have hw : rvWhitePixelCount wBinaryAll wContourR = 1 := by decide
      have ht : rvTotalPixelCount wContourR = 1 := by decide
      rw [hw, ht]
      norm_num)
    wGreenZero wImg202

/-- Witness fixture: an all-zero binarised routes raster (no route overlap). -/
def wBinZero : Mask 1 202 := fun _ _ => 0

/-- Witness fixture: a vegetation mask hitting exactly one of the ten pixels
of `wContourA`, giving a coverage ratio of exactly 1/10. -/
def wGreenOne : Mask 1 202 := fun _ j => if j.val = 0 then 255 else 0

theorem rv_vegetation_strict_threshold_witness :
    rvClassify wBinZero wGreenOne wContourA = RVClass.unclassified ∧
    ∀ img : Img 1 202, rvStep wBinZero wGreenOne img wContourA = img :=
  (rv_vegetation_strict_threshold wBinZero wGreenOne [wContourA] wContourA
    wContourA_mem (by decide) (by decide)).2.1
    (by
      have hg : rvGreenPixelCount wGreenOne wContourA = 1 := by decide
      have ht : rvTotalPixelCount wContourA = 10 := by decide
      rw [hg, ht]
      norm_num)

/-- The value (V) channel of a BGR pixel: the largest channel. -/
def bgrValue (p : Pix) : Nat := max p.1 (max p.2.1 p.2.2)

/-- The smallest channel of a BGR pixel. -/
def bgrMin (p : Pix) : Nat := min p.1 (min p.2.1 p.2.2)

/-- The saturation (S) channel of an 8-bit BGR pixel, following OpenCV's
documented conversion: 255·(V−min)/V rounded, and 0 for a black pixel. -/
def bgrSat (p : Pix) : Nat :=
  if bgrValue p = 0 then 0
  else (round ((255 * ((bgrValue p - bgrMin p : Nat) : ℚ)) / (bgrValue p : ℚ))).toNat

/-- The hue of a BGR pixel in degrees (0 ≤ hue < 360), following OpenCV's
documented conversion: 60·(G−B)/(V−min) when V is the red channel,
120+60·(B−R)/(V−min) when V is the green channel, 240+60·(R−G)/(V−min)
otherwise, adding 360 when negative. -/
def bgrHueDegrees (p : Pix) : ℚ :=
  let v := bgrValue p
  let diff := v - bgrMin p
  let h : ℚ :=
    if diff = 0 then 0
    else if v = p.2.2 then 60 * ((p.2.1 : ℚ) - (p.1 : ℚ)) / (diff : ℚ)
    else if v = p.2.1 then 120 + 60 * ((p.1 : ℚ) - (p.2.2 : ℚ)) / (diff : ℚ)
    else 240 + 60 * ((p.2.2 : ℚ) - (p.2.1 : ℚ)) / (diff : ℚ)
  if h < 0 then h + 360 else h

/-- OpenCV's 8-bit `COLOR_BGR2HSV` result for one pixel: the hue is halved
(H ranges over 0–179, one unit per two degrees), S and V range over 0–255. -/
def bgr2hsvPix (p : Pix) : Pix :=
  ((round (bgrHueDegrees p / 2)).toNat, bgrSat p, bgrValue p)

/-- `cv2.cvtColor(img, COLOR_BGR2HSV)` applied pixelwise. -/
def cvtColorBGR2HSV {m n : Nat} (img : Img m n) : Img m n :=
  fun i j => bgr2hsvPix (img i j)

/-- The public-region mask of segmentation.py:100-104: HSV pixels selected
with `cv2.inRange(hsv, (40,40,40), (80,255,255))`. -/
def ppfPublicMask {m n : Nat} (img : Img m n) : Mask m n :=
  inRange3 (40, 40, 40) (80, 255, 255) (cvtColorBGR2HSV img)

/-- `cv2.bitwise_not` of an 8-bit mask whose values are 0 or 255. -/
def bitwiseNotMask {m n : Nat} (mask : Mask m n) : Mask m n :=
  fun i j => 255 - mask i j

/-- The recolouring of segmentation.py:106-109: wherever the inverted public
mask is 255, the base map pixel is overwritten with red (0,0,255). -/
def ppfRecolor {m n : Nat} (amBaseMap : Img m n) (mask : Mask m n) : Img m n :=
  fun i j => if bitwiseNotMask mask i j = 255 then (0, 0, 255) else amBaseMap i j

/-- Modelled from the spec's words for C5 (refinement comparison only): a
public mask selecting the pixels whose hue lies between 20 and 40 degrees
with S and V between 40 and 255. -/
def ppfPublicMaskClaim {m n : Nat} (img : Img m n) : Mask m n :=
  fun i j =>
    let hs := bgr2hsvPix (img i j)
    if 20 ≤ bgrHueDegrees (img i j) ∧ bgrHueDegrees (img i j) ≤ 40 ∧
        40 ≤ hs.2.1 ∧ hs.2.1 ≤ 255 ∧ 40 ≤ hs.2.2 ∧ hs.2.2 ≤ 255 then 255 else 0

/-- Witness fixture: a 1×1 raster holding one pure-green pixel (BGR
(0,255,0)), whose hue is 120 degrees. -/
def wGreenImg11 : Img 1 1 := fun _ _ => (0, 255, 0)

theorem bgrHueDegrees_green : bgrHueDegrees (0, 255, 0) = 120 := by
  unfold bgrHueDegrees bgrValue bgrMin
  norm_num

theorem bgr2hsvPix_green : bgr2hsvPix (0, 255, 0) = (60, 255, 255) := by
  unfold bgr2hsvPix bgrSat
  rw [bgrHueDegrees_green]
  unfold bgrValue bgrMin
  norm_num [round_eq]
  decide

/-- C5 counterexample: OpenCV's 8-bit hue channel counts two degrees per
unit, so the code's bounds (40,40,40)–(80,255,255) select hues of 80–160
degrees, not 20–40 degrees as the claim states.  On a raster whose single
pixel is pure green (hue 120 degrees) the code's mask selects the pixel and
the base pixel is kept, while a mask of hue 20–40 degrees would reject it
and paint the base pixel red. -/
theorem ppf_hsv_range_counterexample :
    ppfPublicMask wGreenImg11 0 0 = 255 ∧
    ppfPublicMaskClaim wGreenImg11 0 0 = 0 ∧
    ppfRecolor wBase11 (ppfPublicMask wGreenImg11) 0 0 = wBase11 0 0 ∧
    ppfRecolor wBase11 (ppfPublicMaskClaim wGreenImg11) 0 0 = (0, 0, 255) := by
  have h1 : ppfPublicMask wGreenImg11 0 0 = 255 := by
    unfold ppfPublicMask inRange3 cvtColorBGR2HSV wGreenImg11
    rw [bgr2hsvPix_green]
    decide
  have h2 : ppfPublicMaskClaim wGreenImg11 0 0 = 0 := by
    unfold ppfPublicMaskClaim wGreenImg11
    rw [if_neg]
    rw [bgrHueDegrees_green]
    intro hcl
    have h20 := hcl.2.1
    norm_num at h20
  refine ⟨h1, h2, ?_, ?_⟩
  · unfold ppfRecolor bitwiseNotMask
    rw [h1]
    rfl
  · unfold ppfRecolor bitwiseNotMask
    rw [h2]
    rfl

/-- C5 (amended): in `privatePropertyFiltering`, after compositing and
median-blurring the classified fills, the public-region mask selects the
HSV pixels with hue channel 40–80 on OpenCV's half-degree scale (80–160
degrees) and S and V in 40–255, and every base-map pixel not selected by
that mask is recoloured to red (0,0,255) while selected pixels keep their
value. -/
theorem ppf_public_mask_amended {m n : Nat} (img base : Img m n)
    (i : Fin m) (j : Fin n) :
    (ppfPublicMask img i j = 255 ↔
      (40 ≤ (bgr2hsvPix (img i j)).1 ∧ (bgr2hsvPix (img i j)).1 ≤ 80 ∧
       40 ≤ (bgr2hsvPix (img i j)).2.1 ∧ (bgr2hsvPix (img i j)).2.1 ≤ 255 ∧
       40 ≤ (bgr2hsvPix (img i j)).2.2 ∧ (bgr2hsvPix (img i j)).2.2 ≤ 255)) ∧
    (ppfPublicMask img i j ≠ 255 →
      ppfRecolor base (ppfPublicMask img) i j = (0, 0, 255)) ∧
    (ppfPublicMask img i j = 255 →
      ppfRecolor base (ppfPublicMask img) i j = base i j) := by
  have hmask : ppfPublicMask img i j = 255 ∨ ppfPublicMask img i j = 0 := by
    unfold ppfPublicMask inRange3
    by_cases hp : pixInRange (40, 40, 40) (80, 255, 255) (cvtColorBGR2HSV img i j) = true
    · left
      rw [if_pos hp]
    · right
      rw [if_neg hp]
  refine ⟨?_, ?_, ?_⟩
  · unfold ppfPublicMask inRange3 cvtColorBGR2HSV pixInRange
    by_cases hp : (40 ≤ (bgr2hsvPix (img i j)).1 ∧ (bgr2hsvPix (img i j)).1 ≤ 80 ∧
       40 ≤ (bgr2hsvPix (img i j)).2.1 ∧ (bgr2hsvPix (img i j)).2.1 ≤ 255 ∧
       40 ≤ (bgr2hsvPix (img i j)).2.2 ∧ (bgr2hsvPix (img i j)).2.2 ≤ 255)
    · obtain ⟨a1, a2, a3, a4, a5, a6⟩ := hp
      simp [a1, a2, a3, a4, a5, a6]
    · constructor
      · intro h255
        split at h255
        · rename_i hcond
          simp only [Bool.and_eq_true, decide_eq_true_eq] at hcond
          exact absurd ⟨hcond.1.1.1.1.1, hcond.1.1.1.1.2, hcond.1.1.1.2,
            hcond.1.1.2, hcond.1.2, hcond.2⟩ hp
        · exact absurd h255 (by norm_num)
      · intro hc
        exact absurd hc hp
  · intro hne
    have h0 : ppfPublicMask img i j = 0 := hmask.resolve_left hne
    unfold ppfRecolor bitwiseNotMask
    rw [h0]
    rfl
  · intro h255
    unfold ppfRecolor bitwiseNotMask
    rw [h255]
    rfl

theorem ppf_public_mask_amended_witness :
    ppfRecolor wBase11 (ppfPublicMask wGreenImg11) 0 0 = wBase11 0 0 :=
  (ppf_public_mask_amended wGreenImg11 wBase11 0 0).2.2
    (by
      unfold ppfPublicMask inRange3 cvtColorBGR2HSV wGreenImg11
      rw [bgr2hsvPix_green]
      decide)

end SegmentationModel

namespace EvaluationModel

open SegmentationModel

/-- A greyscale mask raster, as produced by `Image.open(...).convert("L")`
in evaluation.py: one 8-bit value per pixel. -/
abbrev GImg (m n : Nat) : Type := Fin m → Fin n → Nat

/-- The four confusion cases of evaluation.py `compare`. -/
inductive CmpCase : Type
  | tp : CmpCase
  | fp : CmpCase
  | fn : CmpCase
  | tn : CmpCase
deriving DecidableEq

/-- The per-pixel comparison chain of evaluation.py:287-299: both black is
a true positive, shape black with ground truth white a false positive,
shape white with ground truth black a false negative, both white a true
negative. -/
def cmpCase (shapePixel gtPixel : Nat) : CmpCase :=
  if shapePixel = 0 ∧ gtPixel = 0 then CmpCase.tp
  else if shapePixel = 0 ∧ 0 < gtPixel then CmpCase.fp
  else if 0 < shapePixel ∧ gtPixel = 0 then CmpCase.fn
  else CmpCase.tn

/-- The colour written to the result map for one pixel: green (0,255,0) for
both black, yellow (255,255,0) for a false positive, red (255,0,0) for a
false negative, black (0,0,0) for both white.  (The result map is an RGB
array handed to matplotlib.) -/
def resultMapPix (shapePixel gtPixel : Nat) : Pix :=
  match cmpCase shapePixel gtPixel with
  | CmpCase.tp => (0, 255, 0)
  | CmpCase.fp => (255, 255, 0)
  | CmpCase.fn => (255, 0, 0)
  | CmpCase.tn => (0, 0, 0)

/-- The whole result map of evaluation.py:285-299. -/
def resultMap {m n : Nat} (shapesMask groundTruthMask : GImg m n) : Img m n :=
  fun i j => resultMapPix (shapesMask i j) (groundTruthMask i j)

/-- The number of pixels falling into a given confusion case. -/
def caseCount {m n : Nat} (shapesMask groundTruthMask : GImg m n)
    (k : CmpCase) : Nat :=
  (Finset.univ.filter
    (fun p : Fin m × Fin n =>
      cmpCase (shapesMask p.1 p.2) (groundTruthMask p.1 p.2) = k)).card

/-- `precision` of evaluation.py:302: tp/(tp+fp) when tp+fp is non-zero and
0 otherwise. -/
def comparePrecision {m n : Nat} (shapesMask groundTruthMask : GImg m n) : ℚ :=
  if caseCount shapesMask groundTruthMask CmpCase.tp +
      caseCount shapesMask groundTruthMask CmpCase.fp ≠ 0 then
    (caseCount shapesMask groundTruthMask CmpCase.tp : ℚ) /
      ((caseCount shapesMask groundTruthMask CmpCase.tp : ℚ) +
       (caseCount shapesMask groundTruthMask CmpCase.fp : ℚ))
  else 0

/-- `recall` of evaluation.py:303: tp/(tp+fn) when tp+fn is non-zero and 0
otherwise. -/
def compareRecall {m n : Nat} (shapesMask groundTruthMask : GImg m n) : ℚ :=
  if caseCount shapesMask groundTruthMask CmpCase.tp +
      caseCount shapesMask groundTruthMask CmpCase.fn ≠ 0 then
    (caseCount shapesMask groundTruthMask CmpCase.tp : ℚ) /
      ((caseCount shapesMask groundTruthMask CmpCase.tp : ℚ) +
       (caseCount shapesMask groundTruthMask CmpCase.fn : ℚ))
  else 0

/-- `accuracy` of evaluation.py:304: (tp+tn)/(tp+tn+fp+fn) when the pixel
total is non-zero and 0 otherwise. -/
def compareAccuracy {m n : Nat} (shapesMask groundTruthMask : GImg m n) : ℚ :=
  if caseCount shapesMask groundTruthMask CmpCase.tp +
      caseCount shapesMask groundTruthMask CmpCase.fp +
      caseCount shapesMask groundTruthMask CmpCase.tn +
      caseCount shapesMask groundTruthMask CmpCase.fn ≠ 0 then
    ((caseCount shapesMask groundTruthMask CmpCase.tp : ℚ) +
     (caseCount shapesMask groundTruthMask CmpCase.tn : ℚ)) /
      ((caseCount shapesMask groundTruthMask CmpCase.tp : ℚ) +
       (caseCount shapesMask groundTruthMask CmpCase.tn : ℚ) +
       (caseCount shapesMask groundTruthMask CmpCase.fp : ℚ) +
       (caseCount shapesMask groundTruthMask CmpCase.fn : ℚ))
  else 0

theorem cmpCase_diag (x : Nat) :
    cmpCase x x = if x = 0 then CmpCase.tp else CmpCase.tn := by
  by_cases hx : x = 0
  · simp [cmpCase, hx]
  · have hpos : ¬(0 < x ∧ x = 0) := fun h => hx h.2
    simp [cmpCase, hx, hpos]

/-- Witness fixture: a 1×1 all-white mask. -/
def wWhiteMask11 : GImg 1 1 := fun _ _ => 255

/-- C6 counterexample: two identical all-white masks give tp = fp = fn = 0,
so `compare` reports precision 0 and recall 0 (the guarded else-branches),
not 1.0 as the claim states; only the accuracy is 1. -/
theorem compare_identical_counterexample :
    wWhiteMask11 = wWhiteMask11 ∧
    comparePrecision wWhiteMask11 wWhiteMask11 = 0 ∧
    compareRecall wWhiteMask11 wWhiteMask11 = 0 ∧
    (0 : ℚ) ≠ 1 := by
  have htp : caseCount wWhiteMask11 wWhiteMask11 CmpCase.tp = 0 := by decide
  have hfp : caseCount wWhiteMask11 wWhiteMask11 CmpCase.fp = 0 := by decide
  have hfn : caseCount wWhiteMask11 wWhiteMask11 CmpCase.fn = 0 := by decide
  refine ⟨rfl, ?_, ?_, by norm_num⟩
  · unfold comparePrecision
    rw [htp, hfp]
    norm_num
  · unfold compareRecall
    rw [htp, hfn]
    norm_num

/-- C6 (amended): for every pair of identical equal-sized masks that
contain at least one black pixel, `compare` reports precision, recall and
accuracy 1, and every pixel of the result map is either the both-black
green (0,255,0) or the both-white black (0,0,0) — no yellow or red pixel
occurs. -/
theorem compare_identical_metrics {m n : Nat} (shapesMask : GImg m n)
    (hb : ∃ i j, shapesMask i j = 0) :
    comparePrecision shapesMask shapesMask = 1 ∧
    compareRecall shapesMask shapesMask = 1 ∧
    compareAccuracy shapesMask shapesMask = 1 ∧
    ∀ i j, resultMap shapesMask shapesMask i j = (0, 255, 0) ∨
      resultMap shapesMask shapesMask i j = (0, 0, 0) := by
  obtain ⟨i0, j0, h0⟩ := hb
  have hfp : caseCount shapesMask shapesMask CmpCase.fp = 0 := by
    unfold caseCount
    rw [Finset.card_eq_zero, Finset.filter_eq_empty_iff]
    intro p _
    rw [cmpCase_diag]
    split <;> simp
  have hfn : caseCount shapesMask shapesMask CmpCase.fn = 0 := by
    unfold caseCount
    rw [Finset.card_eq_zero, Finset.filter_eq_empty_iff]
    intro p _
    rw [cmpCase_diag]
    split <;> simp
  have htp : 0 < caseCount shapesMask shapesMask CmpCase.tp := by
    unfold caseCount
    rw [Finset.card_pos]
    refine ⟨⟨i0, j0⟩, Finset.mem_filter.mpr ⟨Finset.mem_univ _, ?_⟩⟩
    rw [cmpCase_diag]
    simp [h0]
  have htp0 : caseCount shapesMask shapesMask CmpCase.tp ≠ 0 := htp.ne'
  have htpQ : (caseCount shapesMask shapesMask CmpCase.tp : ℚ) ≠ 0 :=
    Nat.cast_ne_zero.mpr htp0
  refine ⟨?_, ?_, ?_, ?_⟩
  · unfold comparePrecision
    rw [hfp, Nat.add_zero, if_pos htp0, Nat.cast_zero, add_zero, div_self htpQ]
  · unfold compareRecall
    rw [hfn, Nat.add_zero, if_pos htp0, Nat.cast_zero, add_zero, div_self htpQ]
  · unfold compareAccuracy
    rw [hfp, hfn, Nat.add_zero, Nat.add_zero]
    have hsum0 : caseCount shapesMask shapesMask CmpCase.tp +
        caseCount shapesMask shapesMask CmpCase.tn ≠ 0 :=
      (Nat.add_pos_left htp _).ne'
    rw [if_pos hsum0, Nat.cast_zero, add_zero, add_zero, div_self]
    have : (0 : ℚ) < (caseCount shapesMask shapesMask CmpCase.tp : ℚ) +
        (caseCount shapesMask shapesMask CmpCase.tn : ℚ) := by
      have h1 : (0 : ℚ) < (caseCount shapesMask shapesMask CmpCase.tp : ℚ) := by
        exact_mod_cast htp
      have h2 : (0 : ℚ) ≤ (caseCount shapesMask shapesMask CmpCase.tn : ℚ) := by
        positivity
      linarith
    exact this.ne'
  · intro i j
    unfold resultMap resultMapPix
    rw [cmpCase_diag]
    by_cases hij : shapesMask i j = 0
    · rw [if_pos hij]
      exact Or.inl rfl
    · rw [if_neg hij]
      exact Or.inr rfl

/-- Witness fixture: a 1×1 all-black mask. -/
def wBlackMask11 : GImg 1 1 := fun _ _ => 0

theorem compare_identical_metrics_witness :
    comparePrecision wBlackMask11 wBlackMask11 = 1 ∧
    compareRecall wBlackMask11 wBlackMask11 = 1 ∧
    compareAccuracy wBlackMask11 wBlackMask11 = 1 ∧
    ∀ i j, resultMap wBlackMask11 wBlackMask11 i j = (0, 255, 0) ∨
      resultMap wBlackMask11 wBlackMask11 i j = (0, 0, 0) :=
  compare_identical_metrics wBlackMask11 ⟨0, 0, rfl⟩

end EvaluationModel

namespace FileStore

/-- A directory seen as a partial map from file names to decoded contents;
`none` stands for a file that is absent or that the decoder cannot read. -/
def writeFile {α : Type} (files : String → Option α) (name : String) (v : α) :
    String → Option α :=
  fun q => if q = name then some v else files q

end FileStore

namespace LoaderModel

open FileStore

/-- `cv2.imread` on a directory of decodable files: the decoder's documented
contract is to return `None` (never to raise) when the file is missing or
unreadable, so it is the plain lookup into the partial map. -/
def imreadFile {α : Type} (files : String → Option α) (p : String) : Option α :=
  files p

/-- `loadImages` of segmentation.py:5-26: read the five fixed-name files of
the given directory and return them as a tuple, in source order. -/
def loadImages {α : Type} (files : String → Option α) (pathMaps : String) :
    Option α × Option α × Option α × Option α × Option α :=
  (imreadFile files (pathMaps ++ "/AM_with_roads.png"),
   imreadFile files (pathMaps ++ "/boundaries.png"),
   imreadFile files (pathMaps ++ "/routes.png"),
   imreadFile files (pathMaps ++ "/AM_Detailed.png"),
   imreadFile files (pathMaps ++ "/satellite.png"))

/-- C7: `loadImages` reads exactly the five fixed-name files
AM_with_roads.png, boundaries.png, routes.png, AM_Detailed.png and
satellite.png of the given directory; a missing or unreadable file yields
`none` in its position (the function is total, no exception), and each of
the five results depends only on its own file, so any of them may be `none`
independently while the other four are still returned. -/
theorem loadImages_five_fixed_files {α : Type} (files : String → Option α)
    (pathMaps : String) :
    (loadImages files pathMaps).1 = files (pathMaps ++ "/AM_with_roads.png") ∧
    (loadImages files pathMaps).2.1 = files (pathMaps ++ "/boundaries.png") ∧
    (loadImages files pathMaps).2.2.1 = files (pathMaps ++ "/routes.png") ∧
    (loadImages files pathMaps).2.2.2.1 = files (pathMaps ++ "/AM_Detailed.png") ∧
    (loadImages files pathMaps).2.2.2.2 = files (pathMaps ++ "/satellite.png") ∧
    (∀ g : String → Option α,
      g (pathMaps ++ "/AM_with_roads.png") = files (pathMaps ++ "/AM_with_roads.png") →
      (loadImages g pathMaps).1 = (loadImages files pathMaps).1) ∧
    (∀ g : String → Option α,
      g (pathMaps ++ "/boundaries.png") = files (pathMaps ++ "/boundaries.png") →
      (loadImages g pathMaps).2.1 = (loadImages files pathMaps).2.1) ∧
    (∀ g : String → Option α,
      g (pathMaps ++ "/routes.png") = files (pathMaps ++ "/routes.png") →
      (loadImages g pathMaps).2.2.1 = (loadImages files pathMaps).2.2.1) ∧
    (∀ g : String → Option α,
      g (pathMaps ++ "/AM_Detailed.png") = files (pathMaps ++ "/AM_Detailed.png") →
      (loadImages g pathMaps).2.2.2.1 = (loadImages files pathMaps).2.2.2.1) ∧
    (∀ g : String → Option α,
      g (pathMaps ++ "/satellite.png") = files (pathMaps ++ "/satellite.png") →
      (loadImages g pathMaps).2.2.2.2 = (loadImages files pathMaps).2.2.2.2) :=
  ⟨rfl, rfl, rfl, rfl, rfl,
   fun _ hg => hg, fun _ hg => hg, fun _ hg => hg, fun _ hg => hg, fun _ hg => hg⟩

theorem loadImages_five_fixed_files_witness :
    (loadImages (fun _ => (none : Option Nat)) "maps").1 =
      (loadImages (fun _ => (none : Option Nat)) "maps").1 :=
  (loadImages_five_fixed_files (fun _ => (none : Option Nat)) "maps").2.2.2.2.2.1
    (fun _ => none) rfl

end LoaderModel

namespace HttpModel

open FileStore

/-- An HTTP response as the fetchers consume it: the numeric status code
and the downloaded body. -/
structure HttpResponse (α : Type) where
  status : Nat
  content : α

/-- `getAMDetailed` of API.py:79-88, reduced to its response handling: on
status 200 the body is written to `path`/AM_Detailed.png; on any other
status nothing is written and two lines are printed, the status code and
the rebuilt request URL. -/
def getAMDetailed {α : Type} (response : HttpResponse α) (url path : String)
    (files : String → Option α) : (String → Option α) × List String :=
  if response.status = 200 then
    (writeFile files (path ++ "/AM_Detailed.png") response.content, [])
  else
    (files, ["Failed to fetch map. Status code: " ++ toString response.status,
             "On path: " ++ url])

/-- `getAMWithRoads` of API.py:138-143: on status 200 write
AM_with_roads.png, otherwise print the status code. -/
def getAMWithRoads {α : Type} (response : HttpResponse α) (path : String)
    (files : String → Option α) : (String → Option α) × List String :=
  if response.status = 200 then
    (writeFile files (path ++ "/AM_with_roads.png") response.content, [])
  else
    (files, ["Failed to fetch roads. Status code: " ++ toString response.status])

/-- `getRoutes` of API.py:189-194: on status 200 write routes.png,
otherwise print the status code. -/
def getRoutes {α : Type} (response : HttpResponse α) (path : String)
    (files : String → Option α) : (String → Option α) × List String :=
  if response.status = 200 then
    (writeFile files (path ++ "/routes.png") response.content, [])
  else
    (files, ["Failed to fetch roads. Status code: " ++ toString response.status])

/-- `getBoundaries` of API.py:243-248: on status 200 write boundaries.png,
otherwise print the status code. -/
def getBoundaries {α : Type} (response : HttpResponse α) (path : String)
    (files : String → Option α) : (String → Option α) × List String :=
  if response.status = 200 then
    (writeFile files (path ++ "/boundaries.png") response.content, [])
  else
    (files, ["Failed to fetch roads. Status code: " ++ toString response.status])

/-- `getSatellite` of API.py:294-299: on status 200 write satellite.png,
otherwise print the status code. -/
def getSatellite {α : Type} (response : HttpResponse α) (path : String)
    (files : String → Option α) : (String → Option α) × List String :=
  if response.status = 200 then
    (writeFile files (path ++ "/satellite.png") response.content, [])
  else
    (files, ["Failed to fetch roads. Status code: " ++ toString response.status])

/-- The download step of the dataprep `getTiles` loops
(dataprepDataforsyningen.py:96-109, dataprepGoogle.py:131-142,
dataprepMapBox.py:96-108): `requests.get` followed by
`raise_for_status()`, which raises exactly for status codes 400–599; a
raised error is caught and a message printed, while for every other status,
200 or not, the tile body is written to the file. -/
def dataprepTileFetch {α : Type} (response : HttpResponse α) (url filePath : String)
    (files : String → Option α) : (String → Option α) × List String :=
  if 400 ≤ response.status ∧ response.status < 600 then
    (files, ["Error downloading " ++ url])
  else
    (writeFile files filePath response.content, [])

/-- C8 counterexample: the dataprep tile fetchers are tile fetch functions,
yet for a 204 response (not 200, not an error status) `raise_for_status`
does not raise and the tile file is written: the output file is not written
"if and only if the status is 200" for every fetch function. -/
theorem fetch_write_iff_200_counterexample :
    (dataprepTileFetch (HttpResponse.mk 204 (7 : Nat)) "u" "t.png"
      (fun _ => none)).1 "t.png" = some 7 ∧ (204 : Nat) ≠ 200 := by
  refine ⟨?_, by decide⟩
  unfold dataprepTileFetch
  rw [if_neg (by norm_num)]
  simp [writeFile]

/-- C8 (amended): each of the five WMS fetchers of AMS/API.py writes its
output file if and only if the response status is 200; on any non-200
status it raises nothing, writes nothing, prints the status code (and for
`getAMDetailed` also the request URL) and returns normally.  The dataprep
tile loops instead write whenever `raise_for_status` does not raise
(status outside 400–599), printing the caught error otherwise. -/
theorem api_fetchers_write_iff_200 {α : Type} (response : HttpResponse α)
    (url path : String) (files : String → Option α) :
    (response.status = 200 →
      getAMDetailed response url path files =
        (writeFile files (path ++ "/AM_Detailed.png") response.content, []) ∧
      getAMWithRoads response path files =
        (writeFile files (path ++ "/AM_with_roads.png") response.content, []) ∧
      getRoutes response path files =
        (writeFile files (path ++ "/routes.png") response.content, []) ∧
      getBoundaries response path files =
        (writeFile files (path ++ "/boundaries.png") response.content, []) ∧
      getSatellite response path files =
        (writeFile files (path ++ "/satellite.png") response.content, [])) ∧
    (response.status ≠ 200 →
      getAMDetailed response url path files =
        (files, ["Failed to fetch map. Status code: " ++ toString response.status,
                 "On path: " ++ url]) ∧
      getAMWithRoads response path files =
        (files, ["Failed to fetch roads. Status code: " ++ toString response.status]) ∧
      getRoutes response path files =
        (files, ["Failed to fetch roads. Status code: " ++ toString response.status]) ∧
      getBoundaries response path files =
        (files, ["Failed to fetch roads. Status code: " ++ toString response.status]) ∧
      getSatellite response path files =
        (files, ["Failed to fetch roads. Status code: " ++ toString response.status])) := by
  constructor
  · intro h
    unfold getAMDetailed getAMWithRoads getRoutes getBoundaries getSatellite
    rw [if_pos h, if_pos h, if_pos h, if_pos h, if_pos h]
    exact ⟨rfl, rfl, rfl, rfl, rfl⟩
  · intro h
    unfold getAMDetailed getAMWithRoads getRoutes getBoundaries getSatellite
    rw [if_neg h, if_neg h, if_neg h, if_neg h, if_neg h]
    exact ⟨rfl, rfl, rfl, rfl, rfl⟩

theorem api_fetchers_write_iff_200_witness :
    getAMDetailed (HttpResponse.mk 404 (3 : Nat)) "u" "p" (fun _ => none) =
      ((fun _ => none), ["Failed to fetch map. Status code: " ++ toString (404 : Nat),
                         "On path: " ++ "u"]) :=
  ((api_fetchers_write_iff_200 (HttpResponse.mk 404 (3 : Nat)) "u" "p"
    (fun _ => none)).2 (by decide)).1

end HttpModel

namespace PipelineModel

open FileStore

/-- A Python function object that the pipeline entry points can return. -/
inductive PyFunc : Type
  | segmentAM : PyFunc
  | segmentAM_noStructures : PyFunc
deriving DecidableEq

/-- `segmentAM` of segmentation.py:353-377, with the two filter stages as
abstract raster transformers: run the private-property filter then the
route-and-vegetation filter, write the result to `pathResult`/segmented.jpg,
and return — per line 377 — the function object `segmentAM` itself. -/
def segmentAMRun {α : Type} (privatePropertyFiltering : α → α → α → α)
    (routeAndVegFiltering : α → α → α → α)
    (amBaseMap amWithRoads boundariesImage routesImage satellite : α)
    (pathResult : String) (files : String → Option α) :
    (String → Option α) × PyFunc :=
  let amDetailed := privatePropertyFiltering amBaseMap boundariesImage routesImage
  let amDetailed2 := routeAndVegFiltering amDetailed routesImage satellite
  (writeFile files (pathResult ++ "/segmented.jpg") amDetailed2, PyFunc.segmentAM)

/-- `segmentAM_noStructures` of segmentation.py:380-411: run the
private-property filter, the structure filter and the route-and-vegetation
filter, write segmented.jpg, and return — per line 411 — the function
object `segmentAM` (not itself). -/
def segmentAM_noStructuresRun {α : Type} (privatePropertyFiltering : α → α → α → α)
    (structureFiltering : α → α → α)
    (routeAndVegFiltering : α → α → α → α)
    (amBaseMap structures boundaries routes ortofoto : α)
    (pathResultNoStructures : String) (files : String → Option α) :
    (String → Option α) × PyFunc :=
  let amDetailed := privatePropertyFiltering amBaseMap boundaries routes
  let amDetailed2 := structureFiltering amDetailed structures
  let amDetailed3 := routeAndVegFiltering amDetailed2 routes ortofoto
  (writeFile files (pathResultNoStructures ++ "/segmented.jpg") amDetailed3,
   PyFunc.segmentAM)

/-- C10: both pipeline entry points return the function object `segmentAM`
(never the segmented raster), for every input; the final raster is
observable only through the segmented.jpg file written into the result
directory, whose content is the composition of the filter stages. -/
theorem segmentAM_returns_function_object {α : Type}
    (ppf rv : α → α → α → α) (sf : α → α → α)
    (a w b r s0 : α) (p : String) (files : String → Option α) :
    (segmentAMRun ppf rv a w b r s0 p files).2 = PyFunc.segmentAM ∧
    (segmentAM_noStructuresRun ppf sf rv a w b r s0 p files).2 = PyFunc.segmentAM ∧
    (segmentAMRun ppf rv a w b r s0 p files).1 (p ++ "/segmented.jpg") =
      some (rv (ppf a b r) r s0) ∧
    (segmentAM_noStructuresRun ppf sf rv a w b r s0 p files).1
        (p ++ "/segmented.jpg") = some (rv (sf (ppf a b r) w) r s0) := by
  refine ⟨rfl, rfl, ?_, ?_⟩
  · unfold segmentAMRun writeFile
    simp
  · unfold segmentAM_noStructuresRun writeFile
    simp

end PipelineModel

namespace FrameModel

open SegmentationModel

/-- Read a raster reference from the heap (a Python local holding an array
object). -/
def readH {α : Type} [Inhabited α] (σ : List α) (r : Nat) : α := σ.getD r default

/-- Mutate the array object behind a reference in place (`drawContours` on
an existing array, fancy-index assignment). -/
def writeH {α : Type} (σ : List α) (r : Nat) (v : α) : List α := σ.set r v

/-- The pure OpenCV transformations used by the three filter stages,
abstracted: the frame theorem below holds for every instantiation of these
fields, so no pixel-level behaviour is assumed.  Values of type `α` are
rasters, values of type `κ` are traced contours. -/
structure CvOps (α κ : Type) where
  prepContours : α → List κ
  contourArea : κ → ℚ
  totalPixels : α → Nat
  classifyColor : α → κ → Pix
  drawFill : α → κ → Pix → α
  finishMask : α → α
  recolorRed : α → α → α
  structMask : α → α
  fillRedWhere : α → α → α
  combinedMask : α → α
  whitenWhere : α → α → α
  bilateral : α → α
  edgeContours : α → List κ
  routesBinary : α → α
  satGreenMask : α → α
  rvDecide : α → α → κ → Bool
  addWeighted : α → α → α
  drawOutline : α → List κ → α
  finalBinary : α → α

/-- The loop body of the private-property classification loop as it acts on
the heap: an in-place `drawContours` on the boundaries copy, reading the
routes copy. -/
def ppfHStep {α κ : Type} [Inhabited α] (ops : CvOps α κ) (bnd2 rt2 : Nat) :
    List α → κ → List α :=
  fun t c => writeH t bnd2
    (ops.drawFill (readH t bnd2) c (ops.classifyColor (readH t rt2) c))

/-- The loop body of the route-and-vegetation loop as it acts on the heap:
an in-place red `drawContours` on the working base-map array when either
check fires, and no heap effect otherwise. -/
def rvHStep {α κ : Type} [Inhabited α] (ops : CvOps α κ)
    (binaryRoutes greenMask : α) (am3 : Nat) : List α → κ → List α :=
  fun t c =>
    if ops.rvDecide binaryRoutes greenMask c then
      writeH t am3 (ops.drawFill (readH t am3) c (0, 0, 255))
    else t

/-- Heap script of `privatePropertyFiltering` (segmentation.py:29-113): the
three inputs are copied on entry (lines 32-34); the boundary prep and the
contour trace are pure (lines 37-64); the classification loop mutates only
the boundaries copy in place (line 89); the final recolouring mutates only
the base-map copy in place (line 109), which is returned. -/
def privatePropertyFilteringH {α κ : Type} [Inhabited α] (ops : CvOps α κ)
    (σ : List α) (amRef bndRef rtRef : Nat) : List α × α :=
  let am2 := σ.length
  let σ1 := σ ++ [readH σ amRef]
  let bnd2 := σ1.length
  let σ2 := σ1 ++ [readH σ1 bndRef]
  let rt2 := σ2.length
  let σ3 := σ2 ++ [readH σ2 rtRef]
  let contours := (ops.prepContours (readH σ3 bnd2)).filter
    (fun c => decide (ops.contourArea c < (ops.totalPixels (readH σ3 bnd2) : ℚ) / 2) &&
      decide (100 < ops.contourArea c))
  let σ4 := contours.foldl (ppfHStep ops bnd2 rt2) σ3
  let filteredBoundaries := ops.finishMask (readH σ4 bnd2)
  let σ5 := writeH σ4 am2 (ops.recolorRed (readH σ4 am2) filteredBoundaries)
  (σ5, readH σ5 am2)

/-- Heap script of `structureFiltering` (segmentation.py:116-157): both
inputs are copied on entry (lines 130-131); the mask building is pure
(lines 134-148); the red fill mutates only the detailed-map copy in place
(line 153), which is returned. -/
def structureFilteringH {α κ : Type} [Inhabited α] (ops : CvOps α κ)
    (σ : List α) (amDetailedRef structuresRef : Nat) : List α × α :=
  let amd2 := σ.length
  let σ1 := σ ++ [readH σ amDetailedRef]
  let st2 := σ1.length
  let σ2 := σ1 ++ [readH σ1 structuresRef]
  let redMask := ops.structMask (readH σ2 st2)
  let σ3 := writeH σ2 amd2 (ops.fillRedWhere (readH σ2 amd2) redMask)
  (σ3, readH σ3 amd2)

/-- Heap script of `routeAndVegFiltering` (segmentation.py:160-346): the
base map and routes raster are copied on entry (lines 163-164; the
satellite raster is only ever read); line 198 mutates the base-map copy in
place; line 203 rebinds the local to a fresh bilateral-filtered array; the
classification loop mutates only that fresh array (lines 287, 310); line
313 copies it again and line 320 draws outlines on that copy; the final
binarisation is pure and its value is returned. -/
def routeAndVegFilteringH {α κ : Type} [Inhabited α] (ops : CvOps α κ)
    (σ : List α) (amRef routesRef satelliteRef : Nat) : List α × α :=
  let am2 := σ.length
  let σ1 := σ ++ [readH σ amRef]
  let rt2 := σ1.length
  let σ2 := σ1 ++ [readH σ1 routesRef]
  let combined := ops.combinedMask (readH σ2 am2)
  let σ3 := writeH σ2 am2 (ops.whitenWhere (readH σ2 am2) combined)
  let am3 := σ3.length
  let σ4 := σ3 ++ [ops.bilateral (readH σ3 am2)]
  let contours := (ops.edgeContours (readH σ4 am3)).filter
    (fun c => decide (ops.contourArea c < (ops.totalPixels (readH σ4 am3) : ℚ) / 2) &&
      decide (100 < ops.contourArea c))
  let binaryRoutes := ops.routesBinary (readH σ4 rt2)
  let greenMask := ops.satGreenMask (readH σ4 satelliteRef)
  let σ5 := contours.foldl (rvHStep ops binaryRoutes greenMask am3) σ4
  let amwc := σ5.length
  let σ6 := σ5 ++ [readH σ5 am3]
  let _overlay := ops.addWeighted (readH σ6 amwc) (readH σ6 rt2)
  let σ7 := writeH σ6 amwc (ops.drawOutline (readH σ6 amwc) contours)
  (σ7, ops.finalBinary (readH σ7 am3))

theorem getD_set_ne {α : Type} (d : α) (σ : List α) (r q : Nat) (v : α)
    (h : q ≠ r) : (σ.set r v).getD q d = σ.getD q d := by
  simp [List.getD, List.getElem?_set_ne (Ne.symm h)]

theorem getD_append_left {α : Type} (d : α) (σ l : List α) (q : Nat)
    (h : q < σ.length) : (σ ++ l).getD q d = σ.getD q d := by
  simp [List.getD, List.getElem?_append_left h]

theorem foldl_heap_invariant {α β : Type} (g : List α → β → List α)
    (Q : List α → Prop) (hg : ∀ t c, Q t → Q (g t c)) (l : List β) :
    ∀ σ, Q σ → Q (l.foldl g σ) := by
  induction l with
  | nil => intro σ h; exact h
  | cons c l ih => intro σ h; exact ih _ (hg σ c h)

theorem ppfHStep_foldl_getD {α κ : Type} [Inhabited α] (ops : CvOps α κ)
    (bnd2 rt2 q : Nat) (h : q ≠ bnd2) (l : List κ) :
    ∀ σ : List α,
      (l.foldl (ppfHStep ops bnd2 rt2) σ).getD q default = σ.getD q default := by
  induction l with
  | nil => intro σ; rfl
  | cons c l ih =>
    intro σ
    rw [List.foldl_cons, ih]
    unfold ppfHStep writeH
    exact getD_set_ne _ _ _ _ _ h

theorem rvHStep_foldl_getD {α κ : Type} [Inhabited α] (ops : CvOps α κ)
    (binaryRoutes greenMask : α) (am3 q : Nat) (h : q ≠ am3) (l : List κ) :
    ∀ σ : List α,
      (l.foldl (rvHStep ops binaryRoutes greenMask am3) σ).getD q default =
        σ.getD q default := by
  induction l with
  | nil => intro σ; rfl
  | cons c l ih =>
    intro σ
    rw [List.foldl_cons, ih]
    unfold rvHStep writeH
    split
    · exact getD_set_ne _ _ _ _ _ h
    · rfl

theorem rvHStep_foldl_length {α κ : Type} [Inhabited α] (ops : CvOps α κ)
    (binaryRoutes greenMask : α) (am3 : Nat) (l : List κ) :
    ∀ σ : List α,
      (l.foldl (rvHStep ops binaryRoutes greenMask am3) σ).length = σ.length := by
  induction l with
  | nil => intro σ; rfl
  | cons c l ih =>
    intro σ
    rw [List.foldl_cons, ih]
    unfold rvHStep writeH
    split
    · exact List.length_set _ _ _
    · rfl

theorem ppfH_frame {α κ : Type} [Inhabited α] (ops : CvOps α κ) (σ : List α)
    (a b r q : Nat) (hq : q < σ.length) :
    ((privatePropertyFilteringH ops σ a b r).1).getD q default = σ.getD q default := by
  unfold privatePropertyFilteringH writeH
  dsimp only
  rw [getD_set_ne _ _ _ _ _ (Nat.ne_of_lt hq)]
  rw [ppfHStep_foldl_getD]
  · rw [getD_append_left, getD_append_left, getD_append_left]
    · exact hq
    · simp only [List.length_append, List.length_cons, List.length_nil]
      omega
    · simp only [List.length_append, List.length_cons, List.length_nil]
      omega
  · simp only [List.length_append, List.length_cons, List.length_nil]
    omega

theorem structH_frame {α κ : Type} [Inhabited α] (ops : CvOps α κ) (σ : List α)
    (a b q : Nat) (hq : q < σ.length) :
    ((structureFilteringH ops σ a b).1).getD q default = σ.getD q default := by
  unfold structureFilteringH writeH
  dsimp only
  rw [getD_set_ne _ _ _ _ _ (Nat.ne_of_lt hq)]
  rw [getD_append_left, getD_append_left]
  · exact hq
  · simp only [List.length_append, List.length_cons, List.length_nil]
    omega

theorem rvH_frame {α κ : Type} [Inhabited α] (ops : CvOps α κ) (σ : List α)
    (a r s q : Nat) (hq : q < σ.length) :
    ((routeAndVegFilteringH ops σ a r s).1).getD q default = σ.getD q default := by
  unfold routeAndVegFilteringH writeH
  dsimp only
  rw [getD_set_ne]
  · rw [getD_append_left]
    · rw [rvHStep_foldl_getD]
      · rw [getD_append_left]
        · rw [getD_set_ne _ _ _ _ _ (Nat.ne_of_lt hq)]
          rw [getD_append_left, getD_append_left]
          · exact hq
          · simp only [List.length_append, List.length_cons, List.length_nil]
            omega
        · simp only [List.length_set, List.length_append, List.length_cons,
            List.length_nil]
          omega
      · simp only [List.length_set, List.length_append, List.length_cons,
          List.length_nil]
        omega
    · rw [rvHStep_foldl_length]
      simp only [List.length_set, List.length_append, List.length_cons,
        List.length_nil]
      omega
  · rw [rvHStep_foldl_length]
    simp only [List.length_set, List.length_append, List.length_cons,
      List.length_nil]
    omega

/-- C9: each filter stage (`privatePropertyFiltering`, `structureFiltering`,
`routeAndVegFiltering`) leaves every raster passed in by the caller
unchanged: all in-place mutation targets the defensive copies (or freshly
allocated arrays) made inside the filter, so every heap cell that existed
before the call holds the same contents after it — for every instantiation
of the pure pixel transformations. -/
theorem filters_do_not_mutate_inputs {α κ : Type} [Inhabited α] (ops : CvOps α κ) :
    (∀ (σ : List α) (amRef bndRef rtRef q : Nat), q < σ.length →
      ((privatePropertyFilteringH ops σ amRef bndRef rtRef).1).getD q default =
        σ.getD q default) ∧
    (∀ (σ : List α) (amDetailedRef structuresRef q : Nat), q < σ.length →
      ((structureFilteringH ops σ amDetailedRef structuresRef).1).getD q default =
        σ.getD q default) ∧
    (∀ (σ : List α) (amRef routesRef satelliteRef q : Nat), q < σ.length →
      ((routeAndVegFilteringH ops σ amRef routesRef satelliteRef).1).getD q default =
        σ.getD q default) :=
  ⟨fun σ a b r q hq => ppfH_frame ops σ a b r q hq,
   fun σ a b q hq => structH_frame ops σ a b q hq,
   fun σ a r s q hq => rvH_frame ops σ a r s q hq⟩

/-- Witness fixture: a trivial instantiation of the abstract raster
transformations over `Nat` rasters and `Unit` contours. -/
def trivCvOps : CvOps Nat Unit where
  prepContours := fun _ => []
  contourArea := fun _ => 0
  totalPixels := fun _ => 0
  classifyColor := fun _ _ => (0, 0, 0)
  drawFill := fun v _ _ => v
  finishMask := id
  recolorRed := fun v _ => v
  structMask := id
  fillRedWhere := fun v _ => v
  combinedMask := id
  whitenWhere := fun v _ => v
  bilateral := id
  edgeContours := fun _ => []
  routesBinary := id
  satGreenMask := id
  rvDecide := fun _ _ _ => false
  addWeighted := fun v _ => v
  drawOutline := fun v _ => v
  finalBinary := id

theorem filters_do_not_mutate_inputs_witness :
    ((privatePropertyFilteringH trivCvOps [5, 6, 7] 0 1 2).1).getD 0 default =
      [5, 6, 7].getD 0 default :=
  (filters_do_not_mutate_inputs trivCvOps).1 [5, 6, 7] 0 1 2 0 (by decide)

end FrameModel
